import Mathlib

/-!
Verification development for the ovos_config_rust repository: a shallow
embedding of the XDG path resolver (src/xdg.rs), the location catalog
(src/locations.rs) and the layered config store (src/config.rs), together
with theorems settling the frozen claims about the specification.

External collaborators (the JSON/YAML parsers and serializers and the
comment-stripping preprocessor) are modelled as parameters, as the spec
declares them outside the core. The file system is modelled as a finite
association list from path strings to regular-file entries (contents,
modification time, readability); Rust panics raised through `expect` are
modelled by an explicit `CallOutcome.panicked` constructor, since a Rust
function whose return type is `()` has no error-value channel.
-/

/-! ## Paths

Unix path strings. `isAbsolute` is `std::path::Path::is_absolute` on Unix
(the path has a root, i.e. begins with a slash); `pathJoin` is
`PathBuf::join`/`Path::join` (an absolute right operand replaces the left,
otherwise the right operand is appended with a separator when needed).
-/

def isAbsolute (s : String) : Bool :=
  match s.data with
  | [] => false
  | c :: _ => c = '/'

/-- Structural splitter on a separator character, the model of Rust
`str::split(sep)`: always returns at least one (possibly empty) chunk and
keeps empty chunks between adjacent separators. -/
def splitChunks (sep : Char) (acc : List Char) : List Char → List String
  | [] => [String.mk acc.reverse]
  | c :: rest =>
    if c = sep then String.mk acc.reverse :: splitChunks sep [] rest
    else splitChunks sep (c :: acc) rest

def splitSep (sep : Char) (s : String) : List String :=
  splitChunks sep [] s.data

/-- Last-character test, the model of the separator check in
`PathBuf::push`. -/
def lastCharIs (c : Char) (s : String) : Bool :=
  s.data.getLast? = some c

def pathJoin (base child : String) : String :=
  if isAbsolute child then child
  else if base = "" then child
  else if lastCharIs '/' base then base ++ child
  else base ++ "/" ++ child

/-- Length of a string in characters. -/
def strLength (s : String) : Nat := s.data.length

/-- Drop of the first n characters of a string. -/
def strDrop (s : String) (n : Nat) : String := String.mk (s.data.drop n)

/-- Final component of a path, as in `Path::file_name` for the paths this
repository builds (no trailing separators). -/
def fileNameOf (p : String) : String :=
  match (splitSep '/' p).reverse with
  | n :: _ => n
  | [] => ""

/-- Embedding of `Path::extension`: the part of the file name after the last
dot, none when there is no dot or the only dot leads a hidden file name. -/
def extensionOf (p : String) : Option String :=
  match splitSep '.' (fileNameOf p) with
  | [] => none
  | [_] => none
  | ["", _] => none
  | parts => parts.getLast?

/-- The filter `!path.is_empty() && Path::new(path).is_absolute()` applied to
environment-variable values by both `path_from_env` and `paths_from_env`. -/
def keepAbs (p : String) : Bool := p ≠ "" && isAbsolute p

/-! ## Process environment

Only the variables the claims touch. A missing field models both an unset
variable and a non-UTF8 value (which `into_string().ok()` turns into `None`
in the source). -/

structure Env where
  HOME : Option String
  XDG_CONFIG_HOME : Option String
  XDG_CONFIG_DIRS : Option String

/-- Embedding of `home_dir` (src/xdg.rs lines 192-197): `HOME` when set and
non-empty, otherwise the root path. No absoluteness check is performed. -/
def home_dir (env : Env) : String :=
  match env.HOME with
  | some h => if h = "" then "/" else h
  | none => "/"

/-- Embedding of `path_from_env` (src/xdg.rs lines 163-172), applied to the
value of the named variable: the value when set, non-empty and absolute,
otherwise the default. -/
def path_from_env (value : Option String) (default : Unit → String) : String :=
  match value with
  | some s => if keepAbs s then s else default ()
  | none => default ()

/-- Embedding of `paths_from_env` (src/xdg.rs lines 175-189): split the value
on colons, keep the non-empty absolute entries, fall back to the default
when nothing is kept or the variable is unset. -/
def paths_from_env (value : Option String) (default : Unit → List String) :
    List String :=
  match value with
  | some s =>
    let paths := (splitSep ':' s).filter keepAbs
    if paths ≠ [] then paths else default ()
  | none => default ()

/-- Embedding of `xdg_config_home` (src/xdg.rs lines 66-68). -/
def xdg_config_home (env : Env) : String :=
  path_from_env env.XDG_CONFIG_HOME (fun _ => pathJoin (home_dir env) ".config")

/-- Embedding of `xdg_config_dirs` (src/xdg.rs lines 48-50). -/
def xdg_config_dirs (env : Env) : List String :=
  paths_from_env env.XDG_CONFIG_DIRS (fun _ => ["/etc/xdg"])

/-! ## Location catalog (src/locations.rs) -/

/-- Embedding of `get_xdg_config_dirs` (src/locations.rs lines 19-24): every
resolved XDG config directory, then the config-home directory, each joined
with the folder (default "mycroft"). -/
def get_xdg_config_dirs (env : Env) (folder : Option String) : List String :=
  let f := folder.getD "mycroft"
  let xdg_dirs := xdg_config_dirs env ++ [xdg_config_home env]
  xdg_dirs.map (fun p => pathJoin p f)

/-- Embedding of `get_xdg_config_locations` (src/locations.rs lines 191-197):
join "mycroft.conf" onto each directory, then reverse. -/
def get_xdg_config_locations (env : Env) : List String :=
  ((get_xdg_config_dirs env none).map (fun p => pathJoin p "mycroft.conf")).reverse

/-- Embedding of `get_xdg_config_save_path` (src/locations.rs lines 62-65). -/
def get_xdg_config_save_path (env : Env) (folder : Option String) : String :=
  pathJoin (xdg_config_home env) (folder.getD "mycroft")

/-! ## Configuration values and dictionaries

`serde_json::Value`: a dynamically typed JSON value (numbers simplified to
integers; no claim depends on numeric semantics). A `ConfigDict`
(`HashMap<String, Value>`) is modelled as an association list with unique
keys maintained by `ainsert`. -/

inductive Value where
  | null
  | bool (b : Bool)
  | num (n : Int)
  | str (s : String)
  | arr (xs : List Value)
  | obj (fields : List (String × Value))

abbrev ConfigDict := List (String × Value)

/-- Association-list lookup, the model of `HashMap::get`. -/
def alookup {α : Type} (d : List (String × α)) (k : String) : Option α :=
  match d with
  | [] => none
  | (k2, v) :: rest => if k2 = k then some v else alookup rest k

/-- Association-list insert, the model of `HashMap::insert`: replaces the
binding when the key is present, appends it otherwise. -/
def ainsert {α : Type} (d : List (String × α)) (k : String) (v : α) :
    List (String × α) :=
  match d with
  | [] => [(k, v)]
  | (k2, v2) :: rest =>
    if k2 = k then (k2, v) :: rest else (k2, v2) :: ainsert rest k v

/-- Model of the merge loop `for (key, value) in conf { data.insert(key, value) }`
used by both `load_local` and `merge` (src/config.rs lines 61-64 and 129-134). -/
def mergeDict (data conf : ConfigDict) : ConfigDict :=
  conf.foldl (fun acc kv => ainsert acc kv.1 kv.2) data

/-! ## File system

Regular files only: a path that is absent from the listing models both a
missing path and a path that is not a regular file (the source treats the
two identically via `path.exists() && path.is_file()`). `readable` models
read permission; `mtime` is the modification time reported by
`metadata().modified()`, as an abstract tick count. -/

structure FileEntry where
  contents : String
  mtime : Nat
  readable : Bool
deriving DecidableEq

structure FS where
  files : List (String × FileEntry)
deriving DecidableEq

/-! ## Layered config store (src/config.rs)

The interior-mutability wrappers (`Arc<RwLock<...>>`) are elided: every
operation takes the state and returns the new state. `CallOutcome.panicked`
records a Rust `expect` panic, which aborts the call without returning a
value to the caller; `parses` counts parser invocations (the
instrumentation hook the spec suggests for the staleness property). -/

structure LocalConf where
  path : Option String
  data : ConfigDict
  last_loaded : Option Nat

inductive CallOutcome where
  | ret
  | panicked (msg : String)
deriving DecidableEq

structure LoadOut where
  outcome : CallOutcome
  conf : LocalConf
  parses : Nat

/-- Effective path resolution `path.or_else(|| self.path.as_deref())` used by
`load_local` and `store`. -/
def effectivePath (path0 : Option String) (c : LocalConf) : Option String :=
  path0.orElse (fun _ => c.path)

/-- Embedding of `LocalConf::get_file_format` (src/config.rs lines 37-45). -/
def get_file_format (c : LocalConf) (path0 : Option String) : String :=
  let p := match path0 with
           | some p => p
           | none => c.path.getD ""
  match extensionOf p with
  | some "yml" => "yaml"
  | some "yaml" => "yaml"
  | _ => "json"

/-- State update at the end of a successful `load_local` (src/config.rs lines
61-72): merge the parsed dictionary into the data, and capture the file's
modification time as the staleness marker when the loaded path equals the
bound path (compared against "" when unbound). -/
def applyLoad (c : LocalConf) (p : String) (entry : FileEntry)
    (config : ConfigDict) : LocalConf :=
  let data := mergeDict c.data config
  if p = c.path.getD "" then ⟨c.path, data, some entry.mtime⟩
  else ⟨c.path, data, c.last_loaded⟩

/-- Embedding of `LocalConf::load_local` (src/config.rs lines 47-77),
parameterized by the external YAML parser `py` and the JSON-with-comments
loader `pj` (`serde_yaml::from_str` and the strip-then-`serde_json` pipeline
of `load_commented_json`, src/config.rs lines 231-242; `none` is any
read/strip/parse failure). A failed open or parse reaches an `expect` and
panics with that message. -/
def load_local (pj py : String → Option ConfigDict) (fs : FS)
    (c : LocalConf) (path0 : Option String) : LoadOut :=
  match effectivePath path0 c with
  | none => ⟨.ret, c, 0⟩
  | some p =>
    match alookup fs.files p with
    | none => ⟨.ret, c, 0⟩
    | some entry =>
      if get_file_format c (some p) = "yaml" then
        if entry.readable then
          match py entry.contents with
          | none => ⟨.panicked "Unable to parse YAML", c, 1⟩
          | some config => ⟨.ret, applyLoad c p entry config, 1⟩
        else ⟨.panicked "Unable to open file", c, 0⟩
      else
        if entry.readable then
          match pj entry.contents with
          | none => ⟨.panicked "Unable to load JSON", c, 1⟩
          | some config => ⟨.ret, applyLoad c p entry config, 1⟩
        else ⟨.panicked "Unable to load JSON", c, 0⟩

/-- Staleness test `last_loaded.map_or(true, |last| last < modified)` of
`LocalConf::reload` (src/config.rs line 85). -/
def staleCheck (last : Option Nat) (mtime : Nat) : Bool :=
  match last with
  | none => true
  | some l => decide (l < mtime)

/-- Embedding of `LocalConf::reload` (src/config.rs lines 79-95): no-op
without a bound regular file; otherwise delegate to `load_local` exactly
when the file is newer than the marker or no marker exists. -/
def LocalConf.reload (pj py : String → Option ConfigDict) (fs : FS)
    (c : LocalConf) : LoadOut :=
  match c.path with
  | none => ⟨.ret, c, 0⟩
  | some p =>
    match alookup fs.files p with
    | none => ⟨.ret, c, 0⟩
    | some entry =>
      if staleCheck c.last_loaded entry.mtime
      then load_local pj py fs c (some p)
      else ⟨.ret, c, 0⟩

structure StoreOut where
  outcome : CallOutcome
  conf : LocalConf
  fs : FS
  errLog : List String

/-- Embedding of `LocalConf::store` (src/config.rs lines 96-127),
parameterized by the external serializers `sj` and `sy`
(`serde_json::to_string_pretty` and `serde_yaml::to_string`) and the current
time `now` stamped on the written file. The source opens the target with
`write(true).create(true)` and no `truncate`, so the write lands at offset 0
and any old bytes beyond the written length survive; `errLog` records the
`error(...)` call of the no-save-location branch. -/
def LocalConf.store (sj sy : ConfigDict → String) (now : Nat) (fs : FS)
    (c : LocalConf) (path0 : Option String) : StoreOut :=
  match effectivePath path0 c with
  | none => ⟨.ret, c, fs, ["In-memory configuration, no save location"]⟩
  | some p =>
    let ser := if get_file_format c (some p) = "yaml" then sy c.data else sj c.data
    let newContents :=
      match alookup fs.files p with
      | some old => ser ++ strDrop old.contents (strLength ser)
      | none => ser
    ⟨.ret, c, ⟨ainsert fs.files p ⟨newContents, now, true⟩⟩, []⟩

/-- Embedding of `LocalConf::merge` (src/config.rs lines 129-134). -/
def LocalConf.merge (c : LocalConf) (conf : ConfigDict) : LocalConf :=
  ⟨c.path, mergeDict c.data conf, c.last_loaded⟩

/-- Embedding of `LocalConf::new` (src/config.rs lines 25-35): start empty
and immediately load when a path is given. -/
def LocalConf.new (pj py : String → Option ConfigDict) (fs : FS)
    (path0 : Option String) : LoadOut :=
  match path0 with
  | some p => load_local pj py fs ⟨some p, [], none⟩ (some p)
  | none => ⟨.ret, ⟨none, [], none⟩, 0⟩

/-! ## Read-only wrapper (src/config.rs lines 137-183) -/

structure ReadOnlyConfig where
  inner : LocalConf
  allow_overwrite : Bool

/-- Policy error message returned by `set`, `merge` and `store` on a
read-only layer. -/
def roMsg : String :=
  "This configuration is read-only and cannot be modified at runtime"

/-- Embedding of `ReadOnlyConfig::set` (src/config.rs lines 157-164). -/
def ReadOnlyConfig.set (c : ReadOnlyConfig) (key : String) (value : Value) :
    Except String Unit × ReadOnlyConfig :=
  if c.allow_overwrite then
    (.ok (), ⟨⟨c.inner.path, ainsert c.inner.data key value, c.inner.last_loaded⟩,
              c.allow_overwrite⟩)
  else (.error roMsg, c)

/-- Embedding of `ReadOnlyConfig::merge` (src/config.rs lines 166-173). -/
def ReadOnlyConfig.merge (c : ReadOnlyConfig) (conf : ConfigDict) :
    Except String Unit × ReadOnlyConfig :=
  if c.allow_overwrite then (.ok (), ⟨c.inner.merge conf, c.allow_overwrite⟩)
  else (.error roMsg, c)

/-- Embedding of `ReadOnlyConfig::store` (src/config.rs lines 175-182): a
policy error when overwriting is not allowed (the file system is untouched
and nothing is logged), otherwise the delegated store's effects with an
unconditional `Ok(())`. -/
def ReadOnlyConfig.store (sj sy : ConfigDict → String) (now : Nat) (fs : FS)
    (c : ReadOnlyConfig) (path0 : Option String) :
    Except String Unit × FS × List String :=
  if c.allow_overwrite then
    let out := c.inner.store sj sy now fs path0
    (.ok (), out.fs, out.errLog)
  else (.error roMsg, fs, [])

/-! ## Environment-state predicates

Boolean encodings of the side conditions the claims quantify over. -/

/-- HOME is unset, empty, or an absolute path (the cases in which the
fallback ~/.config is itself absolute). -/
def homeAbsOrUnset (env : Env) : Bool :=
  match env.HOME with
  | none => true
  | some h => h = "" || isAbsolute h

/-- XDG_CONFIG_HOME is unset, empty, or relative, i.e. the cases in which
`xdg_config_home` falls back to joining the home directory with ".config". -/
def xdgConfigHomeDefaulted (env : Env) : Bool :=
  match env.XDG_CONFIG_HOME with
  | none => true
  | some s => s = "" || !isAbsolute s

/-! ## Concrete fixtures for witnesses and counterexamples -/

/-- Environment with an absolute home directory and no XDG variables set. -/
def envGood : Env := ⟨some "/home/user", none, none⟩

/-- Environment whose HOME is a relative path. -/
def envRelHome : Env := ⟨some "rel", none, none⟩

/-- Environment whose XDG_CONFIG_DIRS mixes absolute, relative and empty
entries. -/
def envDirs : Env := ⟨some "/home/user", none, some "/a:rel::/b"⟩

/-- Parser stub that fails on every input, the behavior of the external
parser at malformed content. -/
def pjNone : String → Option ConfigDict := fun _ => none

/-- YAML parser stub that fails on every input. -/
def pyNone : String → Option ConfigDict := fun _ => none

/-- File system holding one malformed JSON config file. -/
def fsBad : FS := ⟨[("/app/bad.conf", ⟨"this is not json", 3, true⟩)]⟩

/-- Layer bound to the malformed file, with one key already loaded. -/
def confBad : LocalConf := ⟨some "/app/bad.conf", [("old", Value.num 1)], none⟩

/-- Contents of a user config file stating k=2 and j=3 in JSON. -/
def fileKJ : String := "\x7b\"k\":2,\"j\":3\x7d"

/-- Parser behavior of serde_json on `fileKJ`. -/
def pjKJ : String → Option ConfigDict := fun s =>
  if s = fileKJ then some [("k", Value.num 2), ("j", Value.num 3)] else none

/-- File system holding the k/j user config file with modification time 5. -/
def fsKJ : FS := ⟨[("/app/user.conf", ⟨fileKJ, 5, true⟩)]⟩

/-- Layer bound to the k/j file whose dictionary already holds k=1 and u=7. -/
def confK1 : LocalConf :=
  ⟨some "/app/user.conf", [("k", Value.num 1), ("u", Value.num 7)], none⟩

/-- Layer whose staleness marker equals the file's modification time. -/
def confStale : LocalConf :=
  ⟨some "/app/user.conf", [("k", Value.num 1)], some 5⟩

/-- Layer whose staleness marker is older than the file's modification
time. -/
def confFresh : LocalConf :=
  ⟨some "/app/user.conf", [("k", Value.num 1)], some 4⟩

/-- Read-only layer constructed with allow_overwrite = false. -/
def roFalse : ReadOnlyConfig :=
  ⟨⟨some "/etc/mycroft/mycroft.conf", [("a", Value.num 1)], none⟩, false⟩

/-- The same layer constructed with allow_overwrite = true. -/
def roTrue : ReadOnlyConfig :=
  ⟨⟨some "/etc/mycroft/mycroft.conf", [("a", Value.num 1)], none⟩, true⟩

/-- Purely in-memory layer: no bound path. -/
def confNoPath : LocalConf := ⟨none, [("a", Value.num 1)], none⟩

/-- Serializer behavior of serde_json::to_string_pretty at the empty
dictionary: the two-character empty object. -/
def sjEmptyObj : ConfigDict → String := fun _ => "\x7b\x7d"

/-- YAML serializer stub. -/
def syStub : ConfigDict → String := fun _ => ""

/-- Empty file system. -/
def fsEmpty : FS := ⟨[]⟩

/-- File system whose config file holds ten bytes of old content. -/
def fsTenA : FS := ⟨[("/app/conf.json", ⟨"AAAAAAAAAA", 0, true⟩)]⟩

/-- Layer bound to the ten-byte file, with an empty dictionary. -/
def confEmptyBound : LocalConf := ⟨some "/app/conf.json", [], none⟩

/-- Allow-overwrite wrapper around a pathless layer. -/
def roTrueNoPath : ReadOnlyConfig := ⟨⟨none, [("a", Value.num 1)], none⟩, true⟩

/-! ## Helper lemmas -/

theorem isAbsolute_append (a b : String) (h : isAbsolute a = true) :
    isAbsolute (a ++ b) = true := by
  unfold isAbsolute at h ⊢
  rw [String.data_append]
  cases ha : a.data with
  | nil => rw [ha] at h; simp at h
  | cons c rest => rw [ha] at h; exact h

theorem isAbsolute_pathJoin (a b : String) (h : isAbsolute a = true) :
    isAbsolute (pathJoin a b) = true := by
  unfold pathJoin
  by_cases hb : isAbsolute b
  · simp [hb]
  · have ha : a ≠ "" := by
      intro he
      rw [he] at h
      simp [isAbsolute] at h
    by_cases he : lastCharIs '/' a
    · simp [hb, ha, he, isAbsolute_append a b h]
    · simp [hb, ha, he, isAbsolute_append (a ++ "/") b (isAbsolute_append a "/" h)]

theorem alookup_ainsert_self {α : Type} (d : List (String × α)) (k : String)
    (v : α) : alookup (ainsert d k v) k = some v := by
  induction d with
  | nil => simp [ainsert, alookup]
  | cons hd tl ih =>
    obtain ⟨k2, v2⟩ := hd
    by_cases h : k2 = k
    · simp [ainsert, alookup, h]
    · simp [ainsert, alookup, h, ih]

theorem alookup_ainsert_ne {α : Type} (d : List (String × α)) (k k2 : String)
    (v : α) (h : k ≠ k2) : alookup (ainsert d k v) k2 = alookup d k2 := by
  induction d with
  | nil => simp [ainsert, alookup, h]
  | cons hd tl ih =>
    obtain ⟨k3, v3⟩ := hd
    by_cases h3 : k3 = k
    · subst h3
      simp [ainsert, alookup, h]
    · by_cases h2 : k3 = k2
      · subst h2
        simp [ainsert, alookup, h3]
      · simp [ainsert, alookup, h3, h2, ih]

theorem alookup_not_mem {α : Type} (d : List (String × α)) (k : String)
    (h : k ∉ d.map Prod.fst) : alookup d k = none := by
  induction d with
  | nil => rfl
  | cons hd tl ih =>
    obtain ⟨k2, v2⟩ := hd
    simp only [List.map_cons, List.mem_cons] at h
    push_neg at h
    rw [alookup, if_neg (fun e => h.1 e.symm)]
    exact ih h.2

theorem mergeDict_cons (d : ConfigDict) (k : String) (v : Value)
    (rest : ConfigDict) :
    mergeDict d ((k, v) :: rest) = mergeDict (ainsert d k v) rest := rfl

theorem mergeDict_lookup_none : ∀ (conf d : ConfigDict) (k : String),
    alookup conf k = none → alookup (mergeDict d conf) k = alookup d k := by
  intro conf
  induction conf with
  | nil => intro d k _; rfl
  | cons hd rest ih =>
    intro d k h
    obtain ⟨k1, v1⟩ := hd
    rw [mergeDict_cons]
    by_cases hk : k1 = k
    · simp [alookup, hk] at h
    · rw [alookup, if_neg hk] at h
      rw [ih _ k h, alookup_ainsert_ne d k1 k v1 hk]

theorem mergeDict_lookup_some : ∀ (conf d : ConfigDict) (k : String) (v : Value),
    (conf.map Prod.fst).Nodup → alookup conf k = some v →
    alookup (mergeDict d conf) k = some v := by
  intro conf
  induction conf with
  | nil => intro d k v _ h; simp [alookup] at h
  | cons hd rest ih =>
    intro d k v hnd h
    obtain ⟨k1, v1⟩ := hd
    rw [mergeDict_cons]
    simp only [List.map_cons, List.nodup_cons] at hnd
    by_cases hk : k1 = k
    · subst hk
      rw [alookup, if_pos rfl] at h
      have hrest : alookup rest k1 = none := alookup_not_mem rest k1 hnd.1
      rw [mergeDict_lookup_none rest _ k1 hrest, alookup_ainsert_self]
      exact h
    · rw [alookup, if_neg hk] at h
      exact ih _ k v hnd.2 h

theorem home_dir_abs (env : Env) (h : homeAbsOrUnset env = true) :
    isAbsolute (home_dir env) = true := by
  unfold homeAbsOrUnset at h
  unfold home_dir
  cases henv : env.HOME with
  | none => rfl
  | some s =>
    rw [henv] at h
    by_cases hs : s = ""
    · subst hs
      simp
      decide
    · simp [hs] at h ⊢
      exact h

/-! ## Claim theorems -/

/-- C1 counterexample: in the environment with HOME=/home/user and no XDG
variables set, get_xdg_config_locations returns the config-home path first
and the /etc/xdg path last, so the path derived from the XDG config-home
directory is not the last element of the list. -/
theorem c1_counterexample :
    get_xdg_config_locations envGood =
      ["/home/user/.config/mycroft/mycroft.conf",
       "/etc/xdg/mycroft/mycroft.conf"]
    ∧ (get_xdg_config_locations envGood).getLast? =
        some "/etc/xdg/mycroft/mycroft.conf"
    ∧ pathJoin (pathJoin (xdg_config_home envGood) "mycroft") "mycroft.conf" =
        "/home/user/.config/mycroft/mycroft.conf"
    ∧ ("/etc/xdg/mycroft/mycroft.conf" : String) ≠
        "/home/user/.config/mycroft/mycroft.conf" :=
  ⟨rfl, rfl, rfl, by decide⟩

/-- C1 (amended): for every environment state, the list returned by
get_xdg_config_locations has the path derived from the XDG config-home
directory as its FIRST element — the reversal puts the most specific,
highest-priority directory (config-home) first, not last. -/
theorem c1_config_home_first (env : Env) :
    (get_xdg_config_locations env).head? =
      some (pathJoin (pathJoin (xdg_config_home env) "mycroft") "mycroft.conf") := by
  unfold get_xdg_config_locations get_xdg_config_dirs
  simp

/-- C3 counterexample: with HOME set to the relative path "rel" and
XDG_CONFIG_HOME unset, xdg_config_home returns the relative path
"rel/.config", so it does not return an absolute path for every environment
state. -/
theorem c3_counterexample :
    xdg_config_home envRelHome = "rel/.config"
    ∧ isAbsolute (xdg_config_home envRelHome) = false :=
  ⟨rfl, rfl⟩

/-- C3 (amended): whenever HOME is unset, empty, or absolute, xdg_config_home
returns an absolute path; and whenever XDG_CONFIG_HOME is unset, empty, or
relative, the returned path is the home directory joined with ".config".
(When HOME itself is a relative path the fallback home/.config is relative,
because home_dir performs no absoluteness check.) -/
theorem c3_config_home_spec (env : Env) :
    (homeAbsOrUnset env = true → isAbsolute (xdg_config_home env) = true)
    ∧ (xdgConfigHomeDefaulted env = true →
        xdg_config_home env = pathJoin (home_dir env) ".config") := by
  cases hx : env.XDG_CONFIG_HOME with
  | none =>
    constructor
    · intro hh
      simp only [xdg_config_home, path_from_env, hx]
      exact isAbsolute_pathJoin _ _ (home_dir_abs env hh)
    · intro _
      simp only [xdg_config_home, path_from_env, hx]
  | some s =>
    by_cases hs : keepAbs s = true
    · constructor
      · intro _
        simp only [xdg_config_home, path_from_env, hx, if_pos hs]
        exact ((Bool.and_eq_true _ _).mp hs).2
      · intro hd
        exfalso
        simp only [xdgConfigHomeDefaulted, hx] at hd
        rcases (Bool.and_eq_true _ _).mp hs with ⟨h1, h2⟩
        rw [Bool.or_eq_true] at hd
        rcases hd with hd | hd
        · simp at h1 hd
          exact absurd hd h1
        · rw [h2] at hd
          simp at hd
    · constructor
      · intro hh
        simp only [xdg_config_home, path_from_env, hx, if_neg hs]
        exact isAbsolute_pathJoin _ _ (home_dir_abs env hh)
      · intro _
        simp only [xdg_config_home, path_from_env, hx, if_neg hs]

/-- C3 witness: the amended theorem applied to the environment with
HOME=/home/user and XDG_CONFIG_HOME unset. -/
theorem c3_config_home_spec_witness :
    homeAbsOrUnset envGood = true
    ∧ xdgConfigHomeDefaulted envGood = true
    ∧ isAbsolute (xdg_config_home envGood) = true
    ∧ xdg_config_home envGood = pathJoin (home_dir envGood) ".config" :=
  ⟨rfl, rfl, (c3_config_home_spec envGood).1 rfl,
   (c3_config_home_spec envGood).2 rfl⟩

/-- C9: xdg_config_dirs returns exactly the non-empty absolute entries of the
colon-split value of XDG_CONFIG_DIRS, in their original relative order (as a
filter of the split), and the fixed default list when no absolute entry
remains or the variable is unset. -/
theorem c9_config_dirs_spec (env : Env) :
    (env.XDG_CONFIG_DIRS = none → xdg_config_dirs env = ["/etc/xdg"])
    ∧ (∀ s, env.XDG_CONFIG_DIRS = some s →
        ((splitSep ':' s).filter keepAbs ≠ [] →
          xdg_config_dirs env = (splitSep ':' s).filter keepAbs)
        ∧ ((splitSep ':' s).filter keepAbs = [] →
          xdg_config_dirs env = ["/etc/xdg"])) := by
  constructor
  · intro h
    simp only [xdg_config_dirs, paths_from_env, h]
  · intro s hs
    constructor
    · intro hne
      simp only [xdg_config_dirs, paths_from_env, hs, if_pos hne]
    · intro he
      simp only [xdg_config_dirs, paths_from_env, hs, he]
      simp

/-- C9 witness: with XDG_CONFIG_DIRS set to "/a:rel::/b" (an absolute, a
relative and an empty entry mixed), the result keeps exactly the absolute
entries in order. -/
theorem c9_config_dirs_spec_witness :
    envDirs.XDG_CONFIG_DIRS = some "/a:rel::/b"
    ∧ (splitSep ':' "/a:rel::/b").filter keepAbs = ["/a", "/b"]
    ∧ xdg_config_dirs envDirs = ["/a", "/b"] :=
  ⟨rfl, rfl,
   Eq.trans (((c9_config_dirs_spec envDirs).2 "/a:rel::/b" rfl).1 (by decide)) rfl⟩

/-- Reduction of the post-load state update: whichever branch the bound-path
comparison takes, the dictionary becomes the key-overwrite merge. -/
theorem applyLoad_data (c : LocalConf) (p : String) (entry : FileEntry)
    (config : ConfigDict) :
    (applyLoad c p entry config).data = mergeDict c.data config := by
  unfold applyLoad
  split <;> rfl

/-- C2 (code bug): storing the empty dictionary (serialized as the two
characters of the empty JSON object) over a bound file currently holding ten
bytes leaves the eight old trailing bytes in place, because store opens the
file with write+create but never truncates, so the file's contents are not
the serialization of the dictionary. -/
theorem c2_store_residual_bytes :
    (confEmptyBound.store sjEmptyObj syStub 9 fsTenA none).fs.files =
      [("/app/conf.json", ⟨"\x7b\x7dAAAAAAAA", 9, true⟩)]
    ∧ sjEmptyObj confEmptyBound.data = "\x7b\x7d"
    ∧ ("\x7b\x7dAAAAAAAA" : String) ≠ "\x7b\x7d" :=
  ⟨rfl, rfl, by decide⟩

/-- C4 counterexample: on a bound regular file whose contents the JSON loader
cannot parse, load_local panics through expect with "Unable to load JSON";
the call aborts instead of returning, so no error value is propagated to the
immediate caller (load_local's Rust return type is the unit type, which has
no error channel). -/
theorem c4_counterexample :
    (load_local pjNone pyNone fsBad confBad none).outcome =
      CallOutcome.panicked "Unable to load JSON"
    ∧ CallOutcome.panicked "Unable to load JSON" ≠ CallOutcome.ret
    ∧ (load_local pjNone pyNone fsBad confBad none).conf.data = confBad.data :=
  ⟨rfl, by decide, rfl⟩

/-- C4 (amended): for every load operation on a file that exists and is a
regular file but is unreadable or whose contents fail to parse, the
operation fails loudly by panicking with a clear expect message and leaves
the layer (dictionary and staleness marker) unchanged; it does not return an
error value to the caller and does not silently proceed with partial, stale,
or default data. -/
theorem c4_load_failure_panics (pj py : String → Option ConfigDict) (fs : FS)
    (c : LocalConf) (path0 : Option String) (p : String) (entry : FileEntry)
    (heff : effectivePath path0 c = some p)
    (hfs : alookup fs.files p = some entry)
    (hbad : entry.readable = false ∨
      (if get_file_format c (some p) = "yaml" then py else pj)
        entry.contents = none) :
    (∃ msg, (load_local pj py fs c path0).outcome = CallOutcome.panicked msg)
    ∧ (load_local pj py fs c path0).conf = c := by
  by_cases hfmt : get_file_format c (some p) = "yaml"
  · rcases hbad with hb | hb
    · exact ⟨⟨"Unable to open file", by simp [load_local, heff, hfs, hfmt, hb]⟩,
        by simp [load_local, heff, hfs, hfmt, hb]⟩
    · rw [if_pos hfmt] at hb
      by_cases hr : entry.readable = true
      · exact ⟨⟨"Unable to parse YAML",
          by simp [load_local, heff, hfs, hfmt, hr, hb]⟩,
          by simp [load_local, heff, hfs, hfmt, hr, hb]⟩
      · rw [Bool.not_eq_true] at hr
        exact ⟨⟨"Unable to open file", by simp [load_local, heff, hfs, hfmt, hr]⟩,
          by simp [load_local, heff, hfs, hfmt, hr]⟩
  · rcases hbad with hb | hb
    · exact ⟨⟨"Unable to load JSON", by simp [load_local, heff, hfs, hfmt, hb]⟩,
        by simp [load_local, heff, hfs, hfmt, hb]⟩
    · rw [if_neg hfmt] at hb
      by_cases hr : entry.readable = true
      · exact ⟨⟨"Unable to load JSON",
          by simp [load_local, heff, hfs, hfmt, hr, hb]⟩,
          by simp [load_local, heff, hfs, hfmt, hr, hb]⟩
      · rw [Bool.not_eq_true] at hr
        exact ⟨⟨"Unable to load JSON", by simp [load_local, heff, hfs, hfmt, hr]⟩,
          by simp [load_local, heff, hfs, hfmt, hr]⟩

/-- C4 witness: the amended theorem applied to the malformed-file fixture. -/
theorem c4_load_failure_panics_witness :
    effectivePath none confBad = some "/app/bad.conf"
    ∧ alookup fsBad.files "/app/bad.conf" =
        some ⟨"this is not json", 3, true⟩
    ∧ (∃ msg, (load_local pjNone pyNone fsBad confBad none).outcome =
        CallOutcome.panicked msg)
    ∧ (load_local pjNone pyNone fsBad confBad none).conf = confBad :=
  ⟨rfl, rfl,
   (c4_load_failure_panics pjNone pyNone fsBad confBad none "/app/bad.conf"
     ⟨"this is not json", 3, true⟩ rfl rfl (Or.inr rfl)).1,
   (c4_load_failure_panics pjNone pyNone fsBad confBad none "/app/bad.conf"
     ⟨"this is not json", 3, true⟩ rfl rfl (Or.inr rfl)).2⟩

/-- C5: after load_local on a successfully parsed file, the in-memory
dictionary is the key-overwrite union of its previous contents and the
parsed file contents: every key of the file maps to the file's value, every
other key keeps its prior binding, and nothing is removed. -/
theorem c5_load_local_merges (pj py : String → Option ConfigDict) (fs : FS)
    (c : LocalConf) (path0 : Option String) (p : String) (entry : FileEntry)
    (config : ConfigDict)
    (heff : effectivePath path0 c = some p)
    (hfs : alookup fs.files p = some entry)
    (hr : entry.readable = true)
    (hparse : (if get_file_format c (some p) = "yaml" then py else pj)
        entry.contents = some config)
    (hnd : (config.map Prod.fst).Nodup) :
    (load_local pj py fs c path0).outcome = CallOutcome.ret
    ∧ (load_local pj py fs c path0).conf.data = mergeDict c.data config
    ∧ (∀ k v, alookup config k = some v →
        alookup (load_local pj py fs c path0).conf.data k = some v)
    ∧ (∀ k, alookup config k = none →
        alookup (load_local pj py fs c path0).conf.data k = alookup c.data k) := by
  have hload : load_local pj py fs c path0 =
      ⟨CallOutcome.ret, applyLoad c p entry config, 1⟩ := by
    by_cases hfmt : get_file_format c (some p) = "yaml"
    · rw [if_pos hfmt] at hparse
      simp [load_local, heff, hfs, hfmt, hr, hparse]
    · rw [if_neg hfmt] at hparse
      simp [load_local, heff, hfs, hfmt, hr, hparse]
  refine ⟨by rw [hload], ?_, ?_, ?_⟩
  · rw [hload]
    exact applyLoad_data c p entry config
  · intro k v hk
    rw [hload]
    show alookup (applyLoad c p entry config).data k = some v
    rw [applyLoad_data]
    exact mergeDict_lookup_some config c.data k v hnd hk
  · intro k hk
    rw [hload]
    show alookup (applyLoad c p entry config).data k = alookup c.data k
    rw [applyLoad_data]
    exact mergeDict_lookup_none config c.data k hk

/-- C5 witness: loading the file stating k=2 and j=3 into the layer holding
k=1 and u=7 yields exactly k=2, j=3 with u=7 untouched (the claim's merge
example, with an extra untouched key). -/
theorem c5_load_local_merges_witness :
    alookup (load_local pjKJ pyNone fsKJ confK1 none).conf.data "k" =
      some (Value.num 2)
    ∧ alookup (load_local pjKJ pyNone fsKJ confK1 none).conf.data "j" =
      some (Value.num 3)
    ∧ alookup (load_local pjKJ pyNone fsKJ confK1 none).conf.data "u" =
      some (Value.num 7) :=
  ⟨(c5_load_local_merges pjKJ pyNone fsKJ confK1 none "/app/user.conf"
      ⟨fileKJ, 5, true⟩ [("k", Value.num 2), ("j", Value.num 3)]
      rfl rfl rfl rfl (by decide)).2.2.1 "k" (Value.num 2) rfl,
   (c5_load_local_merges pjKJ pyNone fsKJ confK1 none "/app/user.conf"
      ⟨fileKJ, 5, true⟩ [("k", Value.num 2), ("j", Value.num 3)]
      rfl rfl rfl rfl (by decide)).2.2.1 "j" (Value.num 3) rfl,
   Eq.trans
     ((c5_load_local_merges pjKJ pyNone fsKJ confK1 none "/app/user.conf"
        ⟨fileKJ, 5, true⟩ [("k", Value.num 2), ("j", Value.num 3)]
        rfl rfl rfl rfl (by decide)).2.2.2 "u" rfl) rfl⟩

/-- C6: with a bound path that is a regular file, reload re-runs the load
(and invokes the parser once when the file is readable) exactly when the
file's modification time is strictly newer than the staleness marker or no
marker exists; otherwise it returns with the dictionary and marker unchanged
and zero parser invocations. -/
theorem c6_reload_staleness (pj py : String → Option ConfigDict) (fs : FS)
    (c : LocalConf) (p : String) (entry : FileEntry)
    (hp : c.path = some p)
    (hfs : alookup fs.files p = some entry) :
    (staleCheck c.last_loaded entry.mtime = false →
      c.reload pj py fs = ⟨CallOutcome.ret, c, 0⟩)
    ∧ (staleCheck c.last_loaded entry.mtime = true →
      c.reload pj py fs = load_local pj py fs c (some p)
      ∧ (entry.readable = true →
          (load_local pj py fs c (some p)).parses = 1)) := by
  constructor
  · intro h
    simp [LocalConf.reload, hp, hfs, h]
  · intro h
    constructor
    · simp [LocalConf.reload, hp, hfs, h]
    · intro hr
      have heff : effectivePath (some p) c = some p := rfl
      by_cases hfmt : get_file_format c (some p) = "yaml"
      · cases hpy : py entry.contents <;>
          simp [load_local, heff, hfs, hfmt, hr, hpy]
      · cases hpj : pj entry.contents <;>
          simp [load_local, heff, hfs, hfmt, hr, hpj]

/-- C6 witness: the staleness theorem applied to a marker equal to the
file's modification time (skip) and to an older marker (reload). -/
theorem c6_reload_staleness_witness :
    staleCheck confStale.last_loaded 5 = false
    ∧ confStale.reload pjKJ pyNone fsKJ = ⟨CallOutcome.ret, confStale, 0⟩
    ∧ staleCheck confFresh.last_loaded 5 = true
    ∧ confFresh.reload pjKJ pyNone fsKJ =
        load_local pjKJ pyNone fsKJ confFresh (some "/app/user.conf") :=
  ⟨rfl,
   (c6_reload_staleness pjKJ pyNone fsKJ confStale "/app/user.conf"
     ⟨fileKJ, 5, true⟩ rfl rfl).1 rfl,
   rfl,
   ((c6_reload_staleness pjKJ pyNone fsKJ confFresh "/app/user.conf"
     ⟨fileKJ, 5, true⟩ rfl rfl).2 rfl).1⟩

/-- C7: on a layer constructed with allow_overwrite = false, set, merge and
store each return the distinct read-only policy error and leave the layer
and file system unchanged; with allow_overwrite = true the same calls
succeed and perform the mutation (set binds exactly the given key, merge
applies the key-overwrite merge, store returns ok). -/
theorem c7_read_only_enforcement (c : ReadOnlyConfig) (k : String) (v : Value)
    (conf : ConfigDict) (sj sy : ConfigDict → String) (now : Nat) (fs : FS)
    (path0 : Option String) :
    (c.allow_overwrite = false →
      c.set k v = (Except.error roMsg, c)
      ∧ c.merge conf = (Except.error roMsg, c)
      ∧ c.store sj sy now fs path0 = (Except.error roMsg, fs, []))
    ∧ (c.allow_overwrite = true →
      (c.set k v).1 = Except.ok ()
      ∧ alookup (c.set k v).2.inner.data k = some v
      ∧ (∀ k2, k2 ≠ k →
          alookup (c.set k v).2.inner.data k2 = alookup c.inner.data k2)
      ∧ (c.merge conf).1 = Except.ok ()
      ∧ (c.merge conf).2.inner = c.inner.merge conf
      ∧ (c.store sj sy now fs path0).1 = Except.ok ()) := by
  constructor
  · intro h
    refine ⟨?_, ?_, ?_⟩ <;>
      simp [ReadOnlyConfig.set, ReadOnlyConfig.merge, ReadOnlyConfig.store, h]
  · intro h
    refine ⟨?_, ?_, ?_, ?_, ?_, ?_⟩
    · simp [ReadOnlyConfig.set, h]
    · simp [ReadOnlyConfig.set, h, alookup_ainsert_self]
    · intro k2 hk2
      simp only [ReadOnlyConfig.set, h, if_pos]
      exact alookup_ainsert_ne c.inner.data k k2 v (Ne.symm hk2)
    · simp [ReadOnlyConfig.merge, h]
    · simp [ReadOnlyConfig.merge, h]
    · simp [ReadOnlyConfig.store, h]

/-- C7 witness: the enforcement theorem applied to the concrete read-only
and overwritable fixtures. -/
theorem c7_read_only_enforcement_witness :
    roFalse.set "b" (Value.num 2) = (Except.error roMsg, roFalse)
    ∧ (roTrue.set "b" (Value.num 2)).1 = Except.ok ()
    ∧ alookup (roTrue.set "b" (Value.num 2)).2.inner.data "b" =
        some (Value.num 2)
    ∧ (roTrue.store sjEmptyObj syStub 0 fsEmpty none).1 = Except.ok () :=
  ⟨((c7_read_only_enforcement roFalse "b" (Value.num 2) [] sjEmptyObj syStub 0
      fsEmpty none).1 rfl).1,
   ((c7_read_only_enforcement roTrue "b" (Value.num 2) [] sjEmptyObj syStub 0
      fsEmpty none).2 rfl).1,
   ((c7_read_only_enforcement roTrue "b" (Value.num 2) [] sjEmptyObj syStub 0
      fsEmpty none).2 rfl).2.1,
   ((c7_read_only_enforcement roTrue "b" (Value.num 2) [] sjEmptyObj syStub 0
      fsEmpty none).2 rfl).2.2.2.2.2⟩

/-- C8: calling store with no explicit path on a layer with no bound path
logs the no-save-location error and changes nothing: the call returns
normally with the file system, the layer and its dictionary untouched. -/
theorem c8_store_without_path (sj sy : ConfigDict → String) (now : Nat)
    (fs : FS) (c : LocalConf) (h : c.path = none) :
    c.store sj sy now fs none =
      ⟨CallOutcome.ret, c, fs, ["In-memory configuration, no save location"]⟩ := by
  have he : effectivePath none c = none := h
  simp [LocalConf.store, he]

/-- C8 witness: the no-path theorem applied to the pathless fixture over a
non-empty file system. -/
theorem c8_store_without_path_witness :
    confNoPath.path = none
    ∧ confNoPath.store sjEmptyObj syStub 3 fsTenA none =
        ⟨CallOutcome.ret, confNoPath, fsTenA,
         ["In-memory configuration, no save location"]⟩ :=
  ⟨rfl, c8_store_without_path sjEmptyObj syStub 3 fsTenA confNoPath rfl⟩

/-- C10: on a wrapper constructed with allow_overwrite = true, store always
returns ok; in particular when neither an explicit nor a bound path exists,
the underlying save failure is only logged while the wrapper still returns
ok, so the caller cannot distinguish it from a successful write through the
return value. -/
theorem c10_ro_store_always_ok (sj sy : ConfigDict → String) (now : Nat)
    (fs : FS) (c : ReadOnlyConfig) (path0 : Option String)
    (h : c.allow_overwrite = true) :
    (c.store sj sy now fs path0).1 = Except.ok ()
    ∧ (path0 = none → c.inner.path = none →
        (c.store sj sy now fs path0).2.2 =
          ["In-memory configuration, no save location"]) := by
  constructor
  · simp [ReadOnlyConfig.store, h]
  · intro h1 h2
    subst h1
    have he : effectivePath none c.inner = none := h2
    simp [ReadOnlyConfig.store, h, LocalConf.store, he]

/-- C10 witness: the wrapper around a pathless layer returns ok from store
while the no-save-location error is only logged. -/
theorem c10_ro_store_always_ok_witness :
    roTrueNoPath.allow_overwrite = true
    ∧ (roTrueNoPath.store sjEmptyObj syStub 0 fsEmpty none).1 = Except.ok ()
    ∧ (roTrueNoPath.store sjEmptyObj syStub 0 fsEmpty none).2.2 =
        ["In-memory configuration, no save location"] :=
  ⟨rfl,
   (c10_ro_store_always_ok sjEmptyObj syStub 0 fsEmpty roTrueNoPath none rfl).1,
   (c10_ro_store_always_ok sjEmptyObj syStub 0 fsEmpty roTrueNoPath none
     rfl).2 rfl rfl⟩
